import Mathlib

/-!
Shallow embedding of src/homework.py: a fitness-tracker module with a base
Training class, three variants (Running, SportsWalking, Swimming), an
InfoMessage report formatter and a read_package factory.  Python floats are
modelled as rationals (ℚ); Python exceptions are modelled by an explicit
error type and Except.
-/

/-- Pads the fractional part of a 3-decimal rendering to width 3. -/
def padFrac3 (n : ℕ) : String :=
  if n < 10 then "00" ++ toString n
  else if n < 100 then "0" ++ toString n
  else toString n

/-- Renders the integer of thousandths as a fixed-point decimal string. -/
def formatScaled3 (scaled : ℤ) : String :=
  let sign := if scaled < 0 then "-" else ""
  let n := scaled.natAbs
  sign ++ toString (n / 1000) ++ "." ++ padFrac3 (n % 1000)

/-- Renders a rational the way Python formats a number with three decimal
digits (round to nearest at the third decimal). -/
def formatFixed3 (q : ℚ) : String :=
  formatScaled3 (round (q * 1000))

/-- InfoMessage: the report record built by show_training_info. -/
structure InfoMessage where
  training_type : String
  duration : ℚ
  distance : ℚ
  speed : ℚ
  calories : ℚ
deriving DecidableEq

/-- InfoMessage.get_message: instantiates MESSAGE_TEMPLATE, the fixed
template of the source, with the record's fields, every numeric field
formatted with three decimal digits. -/
def InfoMessage.get_message (m : InfoMessage) : String :=
  "Тип тренировки: " ++ m.training_type
    ++ "; Длительность: " ++ formatFixed3 m.duration
    ++ " ч.; Дистанция: " ++ formatFixed3 m.distance
    ++ " км; Ср. скорость: " ++ formatFixed3 m.speed
    ++ " км/ч; Потрачено ккал: " ++ formatFixed3 m.calories
    ++ "."

namespace Training

/-- Training.LEN_STEP, the step length in metres of the base class. -/
def LEN_STEP : ℚ := 0.65

/-- Training.M_IN_KM, metres per kilometre. -/
def M_IN_KM : ℚ := 1000

/-- Training.M_IN_H, minutes per hour. -/
def M_IN_H : ℚ := 60

end Training

namespace Running

/-- Running.CALORIES_MEAN_SPEED_MULTIPLIER. -/
def CALORIES_MEAN_SPEED_MULTIPLIER : ℚ := 18

/-- Running.CALORIES_MEAN_SPEED_SHIFT. -/
def CALORIES_MEAN_SPEED_SHIFT : ℚ := 1.79

end Running

namespace SportsWalking

/-- SportsWalking.CALORIES_VELOCITY_MULTIPLIER. -/
def CALORIES_VELOCITY_MULTIPLIER : ℚ := 0.035

/-- SportsWalking.CALORIES_WEIGHT_MULTIPLIER. -/
def CALORIES_WEIGHT_MULTIPLIER : ℚ := 0.029

/-- SportsWalking.M_PER_SEC, the km/h to m/s factor used by the source. -/
def M_PER_SEC : ℚ := 0.278

/-- SportsWalking.HGT_IN_M, centimetres per metre. -/
def HGT_IN_M : ℚ := 100

end SportsWalking

namespace Swimming

/-- Swimming.LEN_STEP, the stroke length overriding the base value. -/
def LEN_STEP : ℚ := 1.38

/-- Swimming.MEAN_SPEED_SHIFT. -/
def MEAN_SPEED_SHIFT : ℚ := 1.1

/-- Swimming.MEAN_SPEED_MULTIPLIER. -/
def MEAN_SPEED_MULTIPLIER : ℚ := 2

end Swimming

/-- The three concrete workout classes with their constructor fields:
Running(action, duration, weight), SportsWalking(action, duration, weight,
height), Swimming(action, duration, weight, length_pool, count_pool). -/
inductive Workout where
  | running (action duration weight : ℚ)
  | sportsWalking (action duration weight height : ℚ)
  | swimming (action duration weight length_pool count_pool : ℚ)
deriving DecidableEq

/-- The duration field shared by all three classes. -/
def Workout.duration : Workout → ℚ
  | .running _ d _ => d
  | .sportsWalking _ d _ _ => d
  | .swimming _ d _ _ _ => d

/-- self.__class__.__name__, the class name used as the report label. -/
def Workout.className : Workout → String
  | .running _ _ _ => "Running"
  | .sportsWalking _ _ _ _ => "SportsWalking"
  | .swimming _ _ _ _ _ => "Swimming"

/-- get_distance: Running and SportsWalking inherit the base formula
action * LEN_STEP / M_IN_KM; Swimming overrides it with
action * LEN_STEP / M_IN_KM / duration using its own LEN_STEP. -/
def Workout.get_distance : Workout → ℚ
  | .running a _ _ => a * Training.LEN_STEP / Training.M_IN_KM
  | .sportsWalking a _ _ _ => a * Training.LEN_STEP / Training.M_IN_KM
  | .swimming a d _ _ _ => a * Swimming.LEN_STEP / Training.M_IN_KM / d

/-- get_mean_speed: Running and SportsWalking inherit the base formula
get_distance / duration; Swimming overrides it with
length_pool * count_pool / M_IN_KM / duration. -/
def Workout.get_mean_speed : Workout → ℚ
  | .running a d w => (Workout.running a d w).get_distance / d
  | .sportsWalking a d w h => (Workout.sportsWalking a d w h).get_distance / d
  | .swimming _ d _ lp cp => lp * cp / Training.M_IN_KM / d

/-- get_spent_calories of each concrete class, as written in the source. -/
def Workout.get_spent_calories : Workout → ℚ
  | .running a d w =>
      (Running.CALORIES_MEAN_SPEED_MULTIPLIER
          * (Workout.running a d w).get_mean_speed
          + Running.CALORIES_MEAN_SPEED_SHIFT)
        * w / Training.M_IN_KM * d * 60
  | .sportsWalking a d w h =>
      let speed :=
        (Workout.sportsWalking a d w h).get_mean_speed * SportsWalking.M_PER_SEC
      (SportsWalking.CALORIES_VELOCITY_MULTIPLIER * w
          + (speed ^ 2 / (h / SportsWalking.HGT_IN_M))
            * SportsWalking.CALORIES_WEIGHT_MULTIPLIER * w)
        * (d * Training.M_IN_H)
  | .swimming a d w lp cp =>
      ((Workout.swimming a d w lp cp).get_mean_speed + Swimming.MEAN_SPEED_SHIFT)
        * Swimming.MEAN_SPEED_MULTIPLIER * w * d

/-- show_training_info: builds the InfoMessage from the class name, the
duration and the three derived metrics. -/
def Workout.show_training_info (w : Workout) : InfoMessage :=
  ⟨w.className, w.duration, w.get_distance, w.get_mean_speed, w.get_spent_calories⟩

/-- A directly instantiated base Training object (no concrete subclass). -/
structure TrainingBase where
  action : ℚ
  duration : ℚ
  weight : ℚ
deriving DecidableEq

/-- The Python exceptions read_package and the base class can raise. -/
inductive PyError where
  | keyError (key : String)
  | valueError (msg : String)
  | typeError (msg : String)
  | notImplementedError (msg : String)
deriving DecidableEq

/-- Training.get_spent_calories of the base class: raises
NotImplementedError with message Individual_formula. -/
def TrainingBase.get_spent_calories (_ : TrainingBase) : Except PyError ℚ :=
  .error (.notImplementedError "Individual_formula")

/-- A Python dictionary key as compared by the in operator of read_package:
either a string key or the exception class object ValueError. -/
inductive PyKey where
  | str (s : String)
  | excClass (name : String)
deriving DecidableEq

/-- The keys of the training_types dictionary of read_package. -/
def training_types_keys : List PyKey := [.str "RUN", .str "WLK", .str "SWM"]

/-- The guard condition of read_package: the membership test
of the ValueError class object among the keys of training_types. -/
def valueErrorGuard : Bool :=
  training_types_keys.contains (.excClass "ValueError")

/-- read_package: checks the (always-false) guard, then looks the type code
up in training_types (a miss is a KeyError) and calls the matching
constructor on the unpacked data (an arity mismatch is a TypeError). -/
def read_package (training_type : String) (data : List ℚ) :
    Except PyError Workout :=
  if valueErrorGuard then
    .error (.valueError ("Unknown workout type: " ++ training_type))
  else if training_type = "RUN" then
    match data with
    | [a, d, w] => .ok (.running a d w)
    | _ => .error (.typeError "Running takes 3 positional arguments")
  else if training_type = "WLK" then
    match data with
    | [a, d, w, h] => .ok (.sportsWalking a d w h)
    | _ => .error (.typeError "SportsWalking takes 4 positional arguments")
  else if training_type = "SWM" then
    match data with
    | [a, d, w, lp, cp] => .ok (.swimming a d w lp cp)
    | _ => .error (.typeError "Swimming takes 5 positional arguments")
  else
    .error (.keyError training_type)

/-- C3: Running and SportsWalking distance is action_count * 0.65 / 1000;
Swimming distance is action_count * 1.38 / 1000 / duration_hours, the extra
division by duration preserved exactly. -/
theorem get_distance_spec (a d w ht lp cp : ℚ) (hd : 0 < d) :
    (Workout.running a d w).get_distance = a * 0.65 / 1000
    ∧ (Workout.sportsWalking a d w ht).get_distance = a * 0.65 / 1000
    ∧ (Workout.swimming a d w lp cp).get_distance = a * 1.38 / 1000 / d :=
  ⟨rfl, rfl, rfl⟩

/-- C3 witness: the distance formulas at the sample records of the source. -/
theorem get_distance_spec_witness :
    (0 : ℚ) < 1
    ∧ (Workout.running 15000 1 75).get_distance = 15000 * 0.65 / 1000
    ∧ (Workout.sportsWalking 9000 1 75 180).get_distance = 9000 * 0.65 / 1000
    ∧ (Workout.swimming 720 1 80 25 40).get_distance = 720 * 1.38 / 1000 / 1 :=
  ⟨by norm_num,
   (get_distance_spec 15000 1 75 180 25 40 (by norm_num)).1,
   (get_distance_spec 9000 1 75 180 25 40 (by norm_num)).2.1,
   (get_distance_spec 720 1 80 180 25 40 (by norm_num)).2.2⟩

/-- C4: Running and SportsWalking mean speed is get_distance / duration;
Swimming mean speed is length_pool * count_pool / 1000 / duration, a value
independent of action_count (hence of the swimming distance formula). -/
theorem get_mean_speed_spec (a a' d w ht lp cp : ℚ) (hd : 0 < d) :
    (Workout.running a d w).get_mean_speed
        = (Workout.running a d w).get_distance / d
    ∧ (Workout.sportsWalking a d w ht).get_mean_speed
        = (Workout.sportsWalking a d w ht).get_distance / d
    ∧ (Workout.swimming a d w lp cp).get_mean_speed = lp * cp / 1000 / d
    ∧ (Workout.swimming a' d w lp cp).get_mean_speed
        = (Workout.swimming a d w lp cp).get_mean_speed :=
  ⟨rfl, rfl, rfl, rfl⟩

/-- C4 witness: the mean-speed formulas at the sample records. -/
theorem get_mean_speed_spec_witness :
    (0 : ℚ) < 1
    ∧ (Workout.running 15000 1 75).get_mean_speed
        = (Workout.running 15000 1 75).get_distance / 1
    ∧ (Workout.swimming 720 1 80 25 40).get_mean_speed = 25 * 40 / 1000 / 1
    ∧ (Workout.swimming 999 1 80 25 40).get_mean_speed
        = (Workout.swimming 720 1 80 25 40).get_mean_speed :=
  ⟨by norm_num,
   (get_mean_speed_spec 15000 999 1 75 180 25 40 (by norm_num)).1,
   (get_mean_speed_spec 720 999 1 80 180 25 40 (by norm_num)).2.2.1,
   (get_mean_speed_spec 720 999 1 80 180 25 40 (by norm_num)).2.2.2⟩

/-- C5 (amended): Running calories follow the formula
(18 * mean_speed + 1.79) * weight / 1000 * duration * 60, and at the input
RUN [15000, 1, 75] the distance is 9.75 km, the mean speed 9.75 km/h and the
calories exactly 797.805 (not approximately 797.06). -/
theorem running_calories_spec (a d w : ℚ) (hd : 0 < d) :
    (Workout.running a d w).get_spent_calories
      = (18 * (Workout.running a d w).get_mean_speed + 1.79) * w / 1000 * d * 60
    ∧ (Workout.running 15000 1 75).get_distance = 9.75
    ∧ (Workout.running 15000 1 75).get_mean_speed = 9.75
    ∧ (Workout.running 15000 1 75).get_spent_calories = 797.805 := by
  refine ⟨rfl, ?_, ?_, ?_⟩ <;>
    norm_num [Workout.get_spent_calories, Workout.get_mean_speed, Workout.get_distance,
      Training.LEN_STEP, Training.M_IN_KM, Running.CALORIES_MEAN_SPEED_MULTIPLIER,
      Running.CALORIES_MEAN_SPEED_SHIFT]

/-- C5 witness: the running calorie formula and the sample values. -/
theorem running_calories_spec_witness :
    (0 : ℚ) < 1
    ∧ (Workout.running 15000 1 75).get_spent_calories
        = (18 * (Workout.running 15000 1 75).get_mean_speed + 1.79)
            * 75 / 1000 * 1 * 60
    ∧ (Workout.running 15000 1 75).get_spent_calories = 797.805 :=
  ⟨by norm_num,
   (running_calories_spec 15000 1 75 (by norm_num)).1,
   (running_calories_spec 15000 1 75 (by norm_num)).2.2.2⟩

/-- C5 counterexample: at RUN [15000, 1, 75] the calories are exactly
797.805, which exceeds the value 797.06 asserted by the claim by more than
0.7, so the calories are not approximately 797.06. -/
theorem running_calories_not_797_06 :
    (Workout.running 15000 1 75).get_spent_calories = 797.805
    ∧ 797.06 + 0.7 < (Workout.running 15000 1 75).get_spent_calories := by
  constructor <;>
    norm_num [Workout.get_spent_calories, Workout.get_mean_speed, Workout.get_distance,
      Training.LEN_STEP, Training.M_IN_KM, Running.CALORIES_MEAN_SPEED_MULTIPLIER,
      Running.CALORIES_MEAN_SPEED_SHIFT]

/-- C6: SportsWalking calories follow the formula
(0.035 * weight + ((mean_speed * 0.278)^2 / (height / 100)) * 0.029 * weight)
* (duration * 60). -/
theorem walking_calories_spec (a d w ht : ℚ) (hd : 0 < d) (hh : 0 < ht) :
    (Workout.sportsWalking a d w ht).get_spent_calories
      = (0.035 * w
          + (((Workout.sportsWalking a d w ht).get_mean_speed * 0.278) ^ 2
              / (ht / 100))
            * 0.029 * w)
        * (d * 60) :=
  rfl

/-- C6 witness: the walking calorie formula at the sample record. -/
theorem walking_calories_spec_witness :
    (0 : ℚ) < 1 ∧ (0 : ℚ) < 180
    ∧ (Workout.sportsWalking 9000 1 75 180).get_spent_calories
        = (0.035 * 75
            + (((Workout.sportsWalking 9000 1 75 180).get_mean_speed * 0.278) ^ 2
                / (180 / 100))
              * 0.029 * 75)
          * (1 * 60) :=
  ⟨by norm_num, by norm_num,
   walking_calories_spec 9000 1 75 180 (by norm_num) (by norm_num)⟩

/-- C7: Swimming calories follow the formula
(mean_speed + 1.1) * 2 * weight * duration, and at the input
SWM [720, 1, 80, 25, 40] the mean speed is 1 km/h, the distance 0.9936 km
and the calories exactly 336. -/
theorem swimming_calories_spec (a d w lp cp : ℚ) (hd : 0 < d) :
    (Workout.swimming a d w lp cp).get_spent_calories
      = ((Workout.swimming a d w lp cp).get_mean_speed + 1.1) * 2 * w * d
    ∧ (Workout.swimming 720 1 80 25 40).get_mean_speed = 1
    ∧ (Workout.swimming 720 1 80 25 40).get_distance = 0.9936
    ∧ (Workout.swimming 720 1 80 25 40).get_spent_calories = 336 := by
  refine ⟨rfl, ?_, ?_, ?_⟩ <;>
    norm_num [Workout.get_spent_calories, Workout.get_mean_speed, Workout.get_distance,
      Swimming.LEN_STEP, Swimming.MEAN_SPEED_SHIFT, Swimming.MEAN_SPEED_MULTIPLIER,
      Training.M_IN_KM]

/-- C7 witness: the swimming calorie formula and the sample values. -/
theorem swimming_calories_spec_witness :
    (0 : ℚ) < 1
    ∧ (Workout.swimming 720 1 80 25 40).get_spent_calories
        = ((Workout.swimming 720 1 80 25 40).get_mean_speed + 1.1) * 2 * 80 * 1
    ∧ (Workout.swimming 720 1 80 25 40).get_spent_calories = 336 :=
  ⟨by norm_num,
   (swimming_calories_spec 720 1 80 25 40 (by norm_num)).1,
   (swimming_calories_spec 720 1 80 25 40 (by norm_num)).2.2.2⟩

/-- C8: with weight and duration fixed and positive, Running calories are
strictly increasing in the record's mean speed: of two records differing
only in action_count, the faster one burns strictly more calories. -/
theorem running_calories_monotone (a₁ a₂ d w : ℚ) (hw : 0 < w) (hd : 0 < d)
    (hs : (Workout.running a₁ d w).get_mean_speed
        < (Workout.running a₂ d w).get_mean_speed) :
    (Workout.running a₁ d w).get_spent_calories
      < (Workout.running a₂ d w).get_spent_calories := by
  have hwd : 0 < w * d := mul_pos hw hd
  have key := mul_lt_mul_of_pos_right hs hwd
  simp only [Workout.get_spent_calories, Running.CALORIES_MEAN_SPEED_MULTIPLIER,
    Running.CALORIES_MEAN_SPEED_SHIFT, Training.M_IN_KM]
  set s₁ := (Workout.running a₁ d w).get_mean_speed
  set s₂ := (Workout.running a₂ d w).get_mean_speed
  nlinarith [key]

/-- C8 witness: a slower and a faster running record with equal weight and
duration, with the faster one burning strictly more calories. -/
theorem running_calories_monotone_witness :
    (Workout.running 1000 1 75).get_mean_speed
        < (Workout.running 2000 1 75).get_mean_speed
    ∧ (Workout.running 1000 1 75).get_spent_calories
        < (Workout.running 2000 1 75).get_spent_calories := by
  have hs : (Workout.running 1000 1 75).get_mean_speed
      < (Workout.running 2000 1 75).get_mean_speed := by
    norm_num [Workout.get_mean_speed, Workout.get_distance, Training.LEN_STEP,
      Training.M_IN_KM]
  exact ⟨hs, running_calories_monotone 1000 2000 1 75 (by norm_num) (by norm_num) hs⟩

/-- C2 (amended): show_training_info followed by get_message always renders
the source's fixed template, whose labels are the Russian ones of the
source, instantiated with the record's class name, duration, distance, mean
speed and calories, every numeric field formatted with exactly three
decimal digits. -/
theorem show_training_info_template (w : Workout) :
    w.show_training_info.get_message
      = "Тип тренировки: " ++ w.className
        ++ "; Длительность: " ++ formatFixed3 w.duration
        ++ " ч.; Дистанция: " ++ formatFixed3 w.get_distance
        ++ " км; Ср. скорость: " ++ formatFixed3 w.get_mean_speed
        ++ " км/ч; Потрачено ккал: " ++ formatFixed3 w.get_spent_calories
        ++ "." :=
  rfl

/-- C2 counterexample: at the running sample record the rendered message is
the Russian-labelled string of the source, not the English-labelled
template asserted by the claim. -/
theorem show_training_info_not_english_template :
    (Workout.running 15000 1 75).show_training_info.get_message
      = "Тип тренировки: Running; Длительность: 1.000 ч.; Дистанция: 9.750 км; Ср. скорость: 9.750 км/ч; Потрачено ккал: 797.805."
    ∧ (Workout.running 15000 1 75).show_training_info.get_message
      ≠ "Workout type: Running; Duration: 1.000 h; Distance: 9.750 km; Avg. speed: 9.750 km/h; Calories burned: 797.805." := by
  have hdis : (Workout.running 15000 1 75).get_distance = 9.75 := by
    norm_num [Workout.get_distance, Training.LEN_STEP, Training.M_IN_KM]
  have hsp : (Workout.running 15000 1 75).get_mean_speed = 9.75 := by
    norm_num [Workout.get_mean_speed, hdis]
  have hcal : (Workout.running 15000 1 75).get_spent_calories = 797.805 := by
    norm_num [Workout.get_spent_calories, hsp, Running.CALORIES_MEAN_SPEED_MULTIPLIER,
      Running.CALORIES_MEAN_SPEED_SHIFT, Training.M_IN_KM]
  have hfmt1 : formatFixed3 1 = "1.000" := by
    rw [formatFixed3, show round ((1 : ℚ) * 1000) = 1000 from by norm_num [round_eq]]
    rfl
  have hfmt975 : formatFixed3 9.75 = "9.750" := by
    rw [formatFixed3, show round ((9.75 : ℚ) * 1000) = 9750 from by norm_num [round_eq]]
    rfl
  have hfmtcal : formatFixed3 797.805 = "797.805" := by
    rw [formatFixed3,
      show round ((797.805 : ℚ) * 1000) = 797805 from by norm_num [round_eq]]
    rfl
  have hmsg : (Workout.running 15000 1 75).show_training_info.get_message
      = "Тип тренировки: Running; Длительность: 1.000 ч.; Дистанция: 9.750 км; Ср. скорость: 9.750 км/ч; Потрачено ккал: 797.805." := by
    simp only [Workout.show_training_info, InfoMessage.get_message, Workout.className,
      Workout.duration, hdis, hsp, hcal, hfmt1, hfmt975, hfmtcal]
    rfl
  exact ⟨hmsg, by rw [hmsg]; decide⟩

/-- C9: get_spent_calories on a directly instantiated base Training record
raises NotImplementedError for every action, duration and weight, instead
of returning a value. -/
theorem base_training_calories_unimplemented (a d w : ℚ) :
    (TrainingBase.mk a d w).get_spent_calories
      = .error (.notImplementedError "Individual_formula") :=
  rfl

/-- C10: the guard condition of read_package is false for every input, so
the ValueError carrying the unknown-workout-type message is never raised,
and a type code outside RUN, WLK, SWM fails with a KeyError from the
dictionary lookup instead. -/
theorem read_package_guard_dead (t : String) (data : List ℚ) :
    valueErrorGuard = false
    ∧ (t ≠ "RUN" → t ≠ "WLK" → t ≠ "SWM" →
        read_package t data = .error (.keyError t)) := by
  refine ⟨rfl, fun h1 h2 h3 => ?_⟩
  have hg : valueErrorGuard = false := rfl
  simp [read_package, hg, h1, h2, h3]

/-- C10 witness: at the unrecognized code XYZ the guard is false and the
lookup fails with a KeyError. -/
theorem read_package_guard_dead_witness :
    valueErrorGuard = false
    ∧ read_package "XYZ" [] = .error (.keyError "XYZ") :=
  ⟨(read_package_guard_dead "XYZ" []).1,
   (read_package_guard_dead "XYZ" []).2 (by decide) (by decide) (by decide)⟩

/-- C1: at the unrecognized code XYZ the code fails with a KeyError from
the dictionary lookup, not with the ValueError carrying the
unknown-workout-type message that the spec requires. -/
theorem read_package_unknown_raises_keyError :
    read_package "XYZ" [0] = .error (.keyError "XYZ")
    ∧ PyError.keyError "XYZ" ≠ .valueError "Unknown workout type: XYZ" :=
  ⟨rfl, by decide⟩
